import Mathlib

/-!
Verification of the FlamesBlue AI Builder backend (src/main.py) against its
specification.  The generator `generate_site`, the capability list
`list_functions` and the database probe `test_database` are shallowly embedded
below; Python strings become `String` (lists of characters), the FastAPI
HTTPException becomes the error branch of `Except`, and the dynamic import /
exception control flow of the probe becomes an explicit input describing which
of the mutually exclusive outcomes the import and the collection query had.
-/

set_option maxRecDepth 1000000

namespace SiteGen

/-! ## Python string primitives used by the handler -/

/-- Python `str.strip()`: remove leading and trailing whitespace. -/
def pyStrip (s : String) : String :=
  ⟨(((s.data.dropWhile Char.isWhitespace).reverse).dropWhile Char.isWhitespace).reverse⟩

/-- Python `s.rstrip('.')`: remove trailing period characters. -/
def rstripPeriods (s : String) : String :=
  ⟨(s.data.reverse.dropWhile (fun ch => ch = '.')).reverse⟩

/-- Python `s[:n]`: first `n` characters of `s`. -/
def pyTake (s : String) (n : Nat) : String :=
  ⟨s.data.take n⟩

/-- Python `str(e)[:50]`. -/
def strTake50 (s : String) : String :=
  pyTake s 50

/-! ## The title derivation (src/main.py lines 90-92) -/

/-- Title derived from the (already stripped) prompt: `prompt[:80].rstrip('.')`,
with `"..."` appended when the result is shorter than the prompt. -/
def pyTitle (prompt : String) : String :=
  let t := rstripPeriods (pyTake prompt 80)
  if t.length < prompt.length then t ++ "..." else t

/-! ## The HTML template (src/main.py lines 97-104 and 106-156)

The f-strings of the source are concatenations of literal runs and interpolated
values; each literal run between two interpolation points is one definition
below, extracted verbatim from the source (`\x7b`/`\x7d` denote the literal
braces produced by the doubled braces of the f-string). -/

def secA : String :=
  "\n        <section class=\"py-16 border-t border-white/10\">\n          <div class=\"max-w-6xl mx-auto px-6\">\n            <h3 class=\"text-2xl font-semibold text-white mb-4\">Section "

def secB : String :=
  "</h3>\n            <p class=\"text-slate-300 leading-relaxed\">"

def secC : String :=
  " — auto-generated content block "

def secD : String :=
  " with responsive layout and accessible typography. Customize freely.</p>\n          </div>\n        </section>\n        "

def htmlPre1 : String :=
  "<!DOCTYPE html>\n<html lang=\"en\">\n<head>\n  <meta charset=\"UTF-8\" />\n  <meta name=\"viewport\" content=\"width=device-width, initial-scale=1.0\" />\n  <title>AI Generated – FlamesBlue</title>\n  <script src=\"https://cdn.tailwindcss.com\"></script>\n  <link rel=\"preconnect\" href=\"https://fonts.googleapis.com\" />\n  <link rel=\"preconnect\" href=\"https://fonts.gstatic.com\" crossorigin />\n  <link href=\"https://fonts.googleapis.com/css2?family=Inter:wght@400;600;700&display=swap\" rel=\"stylesheet\" />\n  <style>body\x7bfont-family:Inter,system-ui,-apple-system,Segoe UI,Roboto,Helvetica,Arial\x7d .gradient\x7bbackground: radial-gradient(1200px 800px at 50% 10%, rgba(99,102,241,.25), transparent), radial-gradient(1000px 600px at 80% 20%, rgba(56,189,248,.2), transparent), radial-gradient(800px 600px at 20% 20%, rgba(244,114,182,.15), transparent)\x7d .glass\x7bbackdrop-filter:saturate(140%) blur(8px); background:rgba(2,6,23,.55); border:1px solid rgba(255,255,255,.08);\x7d</style>\n</head>\n<body class=\"min-h-screen gradient bg-slate-950 text-slate-100\">\n  <header class=\"sticky top-0 z-40\">\n    <div class=\"max-w-6xl mx-auto px-6 py-4 flex items-center justify-between glass rounded-b-xl\">\n      <div class=\"flex items-center gap-3\">\n        <div class=\"w-8 h-8 rounded-lg bg-"

def htmlPre2 : String :=
  "-500/20 border border-"

def htmlPre3 : String :=
  "-500/30\"></div>\n        <span class=\"font-semibold\">FlamesBlue AI</span>\n      </div>\n      <a href=\"#\" class=\"px-4 py-2 rounded-lg bg-"

def htmlPre4 : String :=
  "-500 text-white hover:bg-"

def htmlPre5 : String :=
  "-400 transition\">Get Started</a>\n    </div>\n  </header>\n\n  <main>\n    <section class=\"pt-16 pb-12\">\n      <div class=\"max-w-6xl mx-auto px-6 grid md:grid-cols-2 gap-10 items-center\">\n        <div>\n          <h1 class=\"text-4xl md:text-5xl font-bold leading-tight\">"

def htmlMid1 : String :=
  "</h1>\n          <p class=\"mt-4 text-slate-300\">A modern, responsive page created with FlamesBlue AI. Edit the text, change the colors, and export immediately.</p>\n          <div class=\"mt-6 flex gap-3\">\n            <a class=\"px-5 py-3 rounded-lg bg-"

def htmlMid2 : String :=
  "-500 text-white hover:bg-"

def htmlMid3 : String :=
  "-400 transition\">Primary action</a>\n            <a class=\"px-5 py-3 rounded-lg border border-white/10 hover:border-white/20 transition\">Secondary</a>\n          </div>\n        </div>\n        <div class=\"glass rounded-2xl p-6\">\n          <div class=\"aspect-video rounded-xl bg-black/30 border border-white/10 flex items-center justify-center text-slate-400\">Media</div>\n        </div>\n      </div>\n    </section>\n\n    "

def htmlPost1 : String :=
  "\n\n    <footer class=\"py-12 border-t border-white/10 mt-8\">\n      <div class=\"max-w-6xl mx-auto px-6 flex items-center justify-between\">\n        <span class=\"text-sm text-slate-400\">Generated with FlamesBlue AI</span>\n        <a class=\"text-sm text-"

def htmlPost2 : String :=
  "-400 hover:text-"

def htmlPost3 : String :=
  "-300\" href=\"#\">Export</a>\n      </div>\n    </footer>\n  </main>\n</body>\n</html>"

/-- One section block of the loop body (src/main.py lines 97-104), with the
index already rendered to text. -/
def sectionBlockStr (idxStr prompt : String) : String :=
  secA ++ idxStr ++ secB ++ prompt ++ secC ++ idxStr ++ secD

/-- The block appended for loop index `i` carries the 1-based label `i`
(the source appends the block for `i+1` over `i in range(sections)`). -/
def sectionBlock (prompt : String) (i : Nat) : String :=
  sectionBlockStr (toString i) prompt

/-- `''.join(section_blocks)` after the loop `for i in range(sections)`. -/
def sectionBlocksJoined (prompt : String) : Nat → String
  | 0 => ""
  | n + 1 => sectionBlocksJoined prompt n ++ sectionBlock prompt (n + 1)

/-- The complete assembled document (src/main.py lines 106-156). -/
def buildHtml (title prompt colorS : String) (sections : Nat) : String :=
  htmlPre1 ++ colorS ++ htmlPre2 ++ colorS ++ htmlPre3 ++ colorS ++ htmlPre4 ++ colorS ++
  htmlPre5 ++ title ++ htmlMid1 ++ colorS ++ htmlMid2 ++ colorS ++ htmlMid3 ++
  sectionBlocksJoined prompt sections ++
  htmlPost1 ++ colorS ++ htmlPost2 ++ colorS ++ htmlPost3

/-! ## Request handling (src/main.py lines 18-27 and 77-165) -/

/-- Request body of `POST /api/generate`.  `color` and `sections` are the
`Optional` pydantic fields with defaults `"indigo"` and `3`; requests whose
`sections` lies outside `[1,6]` are rejected by the field validator before the
handler runs, which `validSections` captures. -/
structure GenerateRequest where
  prompt : String
  color : Option String := some "indigo"
  sections : Option Nat := some 3

/-- The pydantic constraint `ge=1, le=6` on the `sections` field. -/
def validSections (req : GenerateRequest) : Prop :=
  ∀ k, req.sections = some k → 1 ≤ k ∧ k ≤ 6

/-- The `meta` mapping of the response. -/
structure MetaRecord where
  prompt : String
  color : Option String
  sections : Nat
deriving DecidableEq, Repr

/-- Response of `POST /api/generate`. -/
structure GenerateResponse where
  html : String
  meta : MetaRecord
deriving DecidableEq, Repr

/-- Python `sections or 3` (line 87): `None` and `0` are falsy. -/
def resolveSections : Option Nat → Nat
  | none => 3
  | some k => if k = 0 then 3 else k

/-- Python string interpolation of an `Optional[str]` value. -/
def pyStr : Option String → String
  | none => "None"
  | some s => s

/-- The `generate_site` handler (src/main.py lines 77-165).  The
`HTTPException(status_code=400, detail=...)` raise is the error branch. -/
def generate_site (req : GenerateRequest) : Except (Nat × String) GenerateResponse :=
  let prompt := pyStrip req.prompt
  if prompt = "" then
    Except.error (400, "Prompt cannot be empty")
  else
    let color := req.color
    let sections := resolveSections req.sections
    let title := pyTitle prompt
    Except.ok
      { html := buildHtml title prompt (pyStr color) sections
        meta := { prompt := prompt, color := color, sections := sections } }

/-! ## `GET /api/functions` (src/main.py lines 39-74) -/

/-- One capability descriptor. -/
structure FunctionEntry where
  id : String
  name : String
  description : String
  free : Bool
deriving DecidableEq, Repr

/-- The hardcoded capability list returned by `list_functions`. -/
def list_functions : List FunctionEntry :=
  [ { id := "prompt-to-landing", name := "Prompt → Landing Page",
      description := "Generate a responsive landing page layout from a short idea.",
      free := true },
    { id := "brand-colors", name := "Brand Colors",
      description := "Apply a preset accent color across buttons, badges, and highlights.",
      free := true },
    { id := "hero-3d", name := "3D Hero Animation",
      description := "Drop in an interactive Spline animation for a futuristic hero.",
      free := true },
    { id := "feature-grid", name := "Feature Grid",
      description := "Auto-generate a clean features grid with icons and copy.",
      free := true },
    { id := "export", name := "One-Click Export",
      description := "Copy the generated HTML instantly.",
      free := true } ]

/-! ## `GET /test` (src/main.py lines 168-201)

The probe's control flow branches on the dynamic `from database import db`
(which may raise `ImportError` or another exception, or bind `db`, possibly to
`None`) and on `db.list_collection_names()` (which may raise).  Those runtime
outcomes are the explicit `DBImport` input of the embedding. -/

/-- The optional database handle: whether it has a `name` attribute and what
`list_collection_names()` does. -/
structure DBHandle where
  nameAttr : Option String
  listCollectionNames : Except String (List String)

/-- Outcome of `from database import db`. -/
inductive DBImport where
  | importErr : DBImport
  | otherErr : String → DBImport
  | found : Option DBHandle → DBImport

/-- The two environment variables consulted by the probe, as returned by
`os.getenv` (absent, or present with a value). -/
structure Env where
  databaseUrl : Option String
  databaseName : Option String

/-- Python truthiness of an `os.getenv` result: `None` and `""` are falsy. -/
def truthy : Option String → Bool
  | none => false
  | some s => s ≠ ""

/-- The response dictionary of the probe.  `databaseUrl` and `databaseName`
start out as `None` and may later hold strings, hence `Option String`. -/
structure TestResponse where
  backend : String
  database : String
  databaseUrl : Option String
  databaseName : Option String
  connectionStatus : String
  collections : List String
deriving Repr

/-- The `test_database` handler (src/main.py lines 168-201). -/
def test_database (env : Env) (imp : DBImport) : TestResponse :=
  let base : TestResponse :=
    { backend := "✅ Running", database := "❌ Not Available",
      databaseUrl := none, databaseName := none,
      connectionStatus := "Not Connected", collections := [] }
  let r :=
    match imp with
    | DBImport.importErr =>
        { base with database := "❌ Database module not found (run enable-database first)" }
    | DBImport.otherErr e =>
        { base with database := "❌ Error: " ++ strTake50 e }
    | DBImport.found none =>
        { base with database := "⚠️  Available but not initialized" }
    | DBImport.found (some db) =>
        let r1 :=
          { base with database := "✅ Available",
                      databaseUrl := some "✅ Configured",
                      databaseName := some (match db.nameAttr with
                        | some nm => nm
                        | none => "✅ Connected"),
                      connectionStatus := "Connected" }
        match db.listCollectionNames with
        | Except.ok cols =>
            { r1 with collections := cols.take 10, database := "✅ Connected & Working" }
        | Except.error e =>
            { r1 with database := "⚠️  Connected but Error: " ++ strTake50 e }
  { r with databaseUrl := some (if truthy env.databaseUrl then "✅ Set" else "❌ Not Set"),
           databaseName := some (if truthy env.databaseName then "✅ Set" else "❌ Not Set") }

/-! ## A tag scanner for well-formedness

`wellFormedHtml` makes the specification's guarantee "output is a well-formed,
complete HTML document string (matched tags, single root)" precise: scan the
text into `<`…`>` tag tokens, classify each as declaration / closing /
self-closing / opening, and run a matching stack that also counts top-level
elements.  This checker is derived from the spec's words; the source has no
such checker. -/

/-- Scanner state threaded through the text: `none` outside any tag, or
`some acc` inside a tag with accumulated content `acc`. -/
def feedMode : Option (List Char) → List Char → Option (List Char)
  | m, [] => m
  | none, c :: cs => feedMode (if c = '<' then some [] else none) cs
  | some acc, c :: cs => feedMode (if c = '>' then none else some (acc ++ [c])) cs

/-- The contents of the completed `<`…`>` tokens, in order. -/
def feedTokens : Option (List Char) → List Char → List (List Char)
  | _, [] => []
  | none, c :: cs => feedTokens (if c = '<' then some [] else none) cs
  | some acc, c :: cs =>
      if c = '>' then acc :: feedTokens none cs else feedTokens (some (acc ++ [c])) cs

/-- Classification of one tag token. -/
structure TagTok where
  name : List Char
  isClose : Bool
  isSelfClose : Bool
  isDecl : Bool
deriving DecidableEq, Repr

/-- Classify a token content: `!`-declarations, `/`-closings, self-closing
`… /` tags, and opening tags with their leading alphanumeric name. -/
def classify (t : List Char) : TagTok :=
  match t with
  | [] => ⟨[], false, false, false⟩
  | c :: rest =>
      if c = '!' then ⟨[], false, false, true⟩
      else if c = '/' then ⟨rest.takeWhile Char.isAlphanum, true, false, false⟩
      else ⟨(c :: rest).takeWhile Char.isAlphanum, false,
            if (c :: rest).getLast? = some '/' then true else false, false⟩

/-- Run the matching stack over classified tokens, tracking the stack of open
element names and the number of root elements; `none` signals a mismatched
closing tag. -/
def checkRun : List (List Char) → Nat → List TagTok → Option (List (List Char) × Nat)
  | stack, roots, [] => some (stack, roots)
  | stack, roots, tok :: ts =>
      if tok.isDecl then checkRun stack roots ts
      else if tok.isSelfClose then
        checkRun stack (if stack.isEmpty then roots + 1 else roots) ts
      else if tok.isClose then
        match stack with
        | [] => none
        | nm :: rest => if nm = tok.name then checkRun rest roots ts else none
      else checkRun (tok.name :: stack) (if stack.isEmpty then roots + 1 else roots) ts

/-- Well-formedness of a document: the scan ends outside any tag, every closing
tag matches the innermost open element, every element is closed, and exactly
one root element exists. -/
def wellFormedHtml (s : String) : Bool :=
  (feedMode none s.data).isNone &&
    match checkRun [] 0 ((feedTokens none s.data).map classify) with
    | some (stack, roots) => stack.isEmpty && roots == 1
    | none => false

/-- The section-block marker: the content of the opening tag that starts every
generated section block. -/
def markerTok : List Char :=
  ("section class=\"py-16 border-t border-white/10\"").data

/-- Number of occurrences of the section-block marker among the tag tokens of a
document. -/
def countMarker (s : String) : Nat :=
  ((feedTokens none s.data).filter (fun t => t == markerTok)).length

/-- A string free of the markup metacharacters `<` and `>`. -/
def markupFree (s : String) : Prop :=
  ∀ ch ∈ s.data, ch ≠ '<' ∧ ch ≠ '>'

instance (s : String) : Decidable (markupFree s) :=
  List.decidableBAll _ s.data

/-! ## Scanner laws -/

theorem str_data_append (a b : String) : (a ++ b).data = a.data ++ b.data := rfl

theorem feedMode_append (xs : List Char) :
    ∀ (m : Option (List Char)) (ys : List Char),
      feedMode m (xs ++ ys) = feedMode (feedMode m xs) ys := by
  induction xs with
  | nil => intro m ys; cases m <;> rfl
  | cons c cs ih =>
      intro m ys
      cases m with
      | none => simp only [List.cons_append, feedMode]; exact ih _ _
      | some acc => simp only [List.cons_append, feedMode]; exact ih _ _

theorem feedTokens_append (xs : List Char) :
    ∀ (m : Option (List Char)) (ys : List Char),
      feedTokens m (xs ++ ys) = feedTokens m xs ++ feedTokens (feedMode m xs) ys := by
  induction xs with
  | nil => intro m ys; cases m <;> rfl
  | cons c cs ih =>
      intro m ys
      cases m with
      | none =>
          simp only [List.cons_append, feedTokens, feedMode]
          exact ih _ _
      | some acc =>
          simp only [List.cons_append, feedTokens, feedMode]
          by_cases hc : c = '>'
          · simp only [if_pos hc, List.cons_append, List.append_eq]
            rw [ih]
          · simp only [if_neg hc]
            exact ih _ _

theorem feedMode_skip (xs : List Char) (h : ∀ ch ∈ xs, ch ≠ '<') :
    feedMode none xs = none := by
  induction xs with
  | nil => rfl
  | cons c cs ih =>
      have hc : c ≠ '<' := h c (by simp)
      simp only [feedMode, if_neg hc]
      exact ih fun ch hch => h ch (by simp [hch])

theorem feedTokens_skip (xs : List Char) (h : ∀ ch ∈ xs, ch ≠ '<') :
    feedTokens none xs = [] := by
  induction xs with
  | nil => rfl
  | cons c cs ih =>
      have hc : c ≠ '<' := h c (by simp)
      simp only [feedTokens, if_neg hc]
      exact ih fun ch hch => h ch (by simp [hch])

theorem feedMode_acc (xs : List Char) (h : ∀ ch ∈ xs, ch ≠ '>') :
    ∀ acc, feedMode (some acc) xs = some (acc ++ xs) := by
  induction xs with
  | nil => intro acc; simp [feedMode]
  | cons c cs ih =>
      intro acc
      have hc : c ≠ '>' := h c (by simp)
      simp only [feedMode, if_neg hc]
      rw [ih fun ch hch => h ch (by simp [hch])]
      simp

theorem feedTokens_acc (xs : List Char) (h : ∀ ch ∈ xs, ch ≠ '>') :
    ∀ acc, feedTokens (some acc) xs = [] := by
  induction xs with
  | nil => intro acc; rfl
  | cons c cs ih =>
      intro acc
      have hc : c ≠ '>' := h c (by simp)
      simp only [feedTokens, if_neg hc]
      exact ih (fun ch hch => h ch (by simp [hch])) _

theorem checkRun_append (xs : List TagTok) :
    ∀ (stack : List (List Char)) (roots : Nat) (ys : List TagTok),
      checkRun stack roots (xs ++ ys) =
        (checkRun stack roots xs).bind fun p => checkRun p.1 p.2 ys := by
  induction xs with
  | nil => intro stack roots ys; rfl
  | cons tok ts ih =>
      intro stack roots ys
      simp only [List.cons_append, checkRun]
      by_cases h1 : tok.isDecl
      · simp only [if_pos h1]; exact ih _ _ _
      · simp only [if_neg h1]
        by_cases h2 : tok.isSelfClose
        · simp only [if_pos h2]; exact ih _ _ _
        · simp only [if_neg h2]
          by_cases h3 : tok.isClose
          · simp only [if_pos h3]
            cases stack with
            | nil => rfl
            | cons nm rest =>
                by_cases h4 : nm = tok.name
                · simp only [if_pos h4]; exact ih _ _ _
                · simp only [if_neg h4]; rfl
          · simp only [if_neg h3]; exact ih _ _ _

/-! ## Template chunk geometry

Named splits of the template literals at the `>` that closes the tag an
interpolated `color` lives in, the tag contents accumulated at each
interpolation point, and the token lists of the generated document. -/

def htmlPre3y : String := "-500/30\""

def htmlPre3z : String :=
  "</div>\n        <span class=\"font-semibold\">FlamesBlue AI</span>\n      </div>\n      <a href=\"#\" class=\"px-4 py-2 rounded-lg bg-"

def htmlPre5y : String := "-400 transition\""

def htmlPre5z : String :=
  "Get Started</a>\n    </div>\n  </header>\n\n  <main>\n    <section class=\"pt-16 pb-12\">\n      <div class=\"max-w-6xl mx-auto px-6 grid md:grid-cols-2 gap-10 items-center\">\n        <div>\n          <h1 class=\"text-4xl md:text-5xl font-bold leading-tight\">"

def htmlMid3y : String := "-400 transition\""

def htmlMid3z : String :=
  "Primary action</a>\n            <a class=\"px-5 py-3 rounded-lg border border-white/10 hover:border-white/20 transition\">Secondary</a>\n          </div>\n        </div>\n        <div class=\"glass rounded-2xl p-6\">\n          <div class=\"aspect-video rounded-xl bg-black/30 border border-white/10 flex items-center justify-center text-slate-400\">Media</div>\n        </div>\n      </div>\n    </section>\n\n    "

def htmlPost3y : String := "-300\" href=\"#\""

def htmlPost3z : String :=
  "Export</a>\n      </div>\n    </footer>\n  </main>\n</body>\n</html>"

def accBadge : String := "div class=\"w-8 h-8 rounded-lg bg-"

def accGet : String := "a href=\"#\" class=\"px-4 py-2 rounded-lg bg-"

def accPrim : String := "a class=\"px-5 py-3 rounded-lg bg-"

def accExp : String := "a class=\"text-sm text-"

/-- Content of the header badge `div` tag, containing the color twice. -/
def tokBadge (c : String) : List Char :=
  accBadge.data ++ c.data ++ htmlPre2.data ++ c.data ++ htmlPre3y.data

/-- Content of the header "Get Started" `a` tag. -/
def tokGet (c : String) : List Char :=
  accGet.data ++ c.data ++ htmlPre4.data ++ c.data ++ htmlPre5y.data

/-- Content of the hero "Primary action" `a` tag. -/
def tokPrim (c : String) : List Char :=
  accPrim.data ++ c.data ++ htmlMid2.data ++ c.data ++ htmlMid3y.data

/-- Content of the footer "Export" `a` tag. -/
def tokExp (c : String) : List Char :=
  accExp.data ++ c.data ++ htmlPost2.data ++ c.data ++ htmlPost3y.data

/-- Tag tokens of one section block. -/
def secToks : List (List Char) :=
  feedTokens none secA.data ++ feedTokens none secB.data ++ feedTokens none secD.data

/-- Tag tokens of `n` consecutive section blocks. -/
def secRep : Nat → List (List Char)
  | 0 => []
  | n + 1 => secRep n ++ secToks

/-- Tag tokens of the whole generated document, for a markup-free title,
prompt and color. -/
def htmlToks (c : String) (n : Nat) : List (List Char) :=
  feedTokens none htmlPre1.data ++
    tokBadge c :: feedTokens none htmlPre3z.data ++
    tokGet c :: feedTokens none htmlPre5z.data ++
    feedTokens none htmlMid1.data ++
    tokPrim c :: feedTokens none htmlMid3z.data ++
    secRep n ++
    feedTokens none htmlPost1.data ++
    tokExp c :: feedTokens none htmlPost3z.data

/-! ## Segment stepping -/

theorem feedTokens_gtStep (a : List Char) (zs : List Char) :
    feedTokens (some a) ('>' :: zs) = a :: feedTokens none zs := by
  simp [feedTokens]

theorem feedMode_gtStep (a : List Char) (zs : List Char) :
    feedMode (some a) ('>' :: zs) = feedMode none zs := by
  simp [feedMode]

/-- A markup-free value interpolated outside any tag is invisible to the scan. -/
theorem seg_skip (v : String) (hv : markupFree v) (R : List Char) :
    feedTokens none (v.data ++ R) = feedTokens none R ∧
      feedMode none (v.data ++ R) = feedMode none R := by
  have h : ∀ ch ∈ v.data, ch ≠ '<' := fun ch hch => ((hv ch hch).1)
  constructor
  · rw [feedTokens_append, feedMode_skip _ h, feedTokens_skip _ h]; rfl
  · rw [feedMode_append, feedMode_skip _ h]

/-- A `>`-free value interpolated inside a tag only grows the accumulator. -/
theorem seg_acc (v : String) (hv : ∀ ch ∈ v.data, ch ≠ '>') (a : List Char) (R : List Char) :
    feedTokens (some a) (v.data ++ R) = feedTokens (some (a ++ v.data)) R ∧
      feedMode (some a) (v.data ++ R) = feedMode (some (a ++ v.data)) R := by
  constructor
  · rw [feedTokens_append, feedTokens_acc _ hv, feedMode_acc _ hv]; rfl
  · rw [feedMode_append, feedMode_acc _ hv]

/-- A literal chunk that starts and ends outside any tag contributes its own
tokens. -/
theorem seg_lit_none (L : String) (h : feedMode none L.data = none) (R : List Char) :
    feedTokens none (L.data ++ R) = feedTokens none L.data ++ feedTokens none R ∧
      feedMode none (L.data ++ R) = feedMode none R := by
  constructor
  · rw [feedTokens_append, h]
  · rw [feedMode_append, h]

/-- Digits rendered for the capped section indices contain no markup. -/
theorem digit_markupFree : ∀ i, i ≤ 6 → markupFree (toString i) := by decide

/-- Scanning one section block: it contributes exactly `secToks` regardless of
the (markup-free) index text and prompt. -/
theorem section_scan (d p : String) (hd : markupFree d) (hp : markupFree p) (R : List Char) :
    feedTokens none ((sectionBlockStr d p).data ++ R) = secToks ++ feedTokens none R ∧
      feedMode none ((sectionBlockStr d p).data ++ R) = feedMode none R := by
  have hA : feedMode none secA.data = none := by decide
  have hB : feedMode none secB.data = none := by decide
  have hC : feedMode none secC.data = none := by decide
  have hD : feedMode none secD.data = none := by decide
  have hCt : feedTokens none secC.data = [] := by decide
  simp only [sectionBlockStr, str_data_append, List.append_assoc]
  constructor
  · rw [(seg_lit_none secA hA _).1, (seg_skip d hd _).1, (seg_lit_none secB hB _).1,
        (seg_skip p hp _).1, (seg_lit_none secC hC _).1, (seg_skip d hd _).1,
        (seg_lit_none secD hD _).1, hCt]
    simp [secToks, List.append_assoc]
  · rw [(seg_lit_none secA hA _).2, (seg_skip d hd _).2, (seg_lit_none secB hB _).2,
        (seg_skip p hp _).2, (seg_lit_none secC hC _).2, (seg_skip d hd _).2,
        (seg_lit_none secD hD _).2]

/-- Scanning the joined section blocks. -/
theorem joined_scan (p : String) (hp : markupFree p) :
    ∀ k, k ≤ 6 → ∀ R,
      feedTokens none ((sectionBlocksJoined p k).data ++ R) = secRep k ++ feedTokens none R ∧
        feedMode none ((sectionBlocksJoined p k).data ++ R) = feedMode none R := by
  intro k
  induction k with
  | zero =>
      intro _ R
      constructor <;> simp [sectionBlocksJoined, secRep]
  | succ k ih =>
      intro hk R
      have hk' : k ≤ 6 := Nat.le_of_succ_le hk
      have hd : markupFree (toString (k + 1)) := digit_markupFree _ hk
      simp only [sectionBlocksJoined, sectionBlock, str_data_append, List.append_assoc]
      constructor
      · rw [(ih hk' _).1, (section_scan (toString (k + 1)) p hd hp _).1]
        simp [secRep, List.append_assoc]
      · rw [(ih hk' _).2, (section_scan (toString (k + 1)) p hd hp _).2]

/-- Scanning the full generated document with markup-free title, prompt and
color: the tokens are `htmlToks` and the scan ends outside any tag. -/
theorem buildHtml_scan (t p c : String) (ht : markupFree t) (hp : markupFree p)
    (hc : markupFree c) (n : Nat) (hn : n ≤ 6) :
    feedTokens none (buildHtml t p c n).data = htmlToks c n ∧
      feedMode none (buildHtml t p c n).data = none := by
  have hcg : ∀ ch ∈ c.data, ch ≠ '>' := fun ch h => (hc ch h).2
  have m1 : feedMode none htmlPre1.data = some accBadge.data := by decide
  have g2 : ∀ ch ∈ htmlPre2.data, ch ≠ '>' := by decide
  have s3 : htmlPre3.data = htmlPre3y.data ++ '>' :: htmlPre3z.data := by decide
  have g3 : ∀ ch ∈ htmlPre3y.data, ch ≠ '>' := by decide
  have m3 : feedMode none htmlPre3z.data = some accGet.data := by decide
  have g4 : ∀ ch ∈ htmlPre4.data, ch ≠ '>' := by decide
  have s5 : htmlPre5.data = htmlPre5y.data ++ '>' :: htmlPre5z.data := by decide
  have g5 : ∀ ch ∈ htmlPre5y.data, ch ≠ '>' := by decide
  have m5 : feedMode none htmlPre5z.data = none := by decide
  have mm1 : feedMode none htmlMid1.data = some accPrim.data := by decide
  have gm2 : ∀ ch ∈ htmlMid2.data, ch ≠ '>' := by decide
  have sm3 : htmlMid3.data = htmlMid3y.data ++ '>' :: htmlMid3z.data := by decide
  have gm3 : ∀ ch ∈ htmlMid3y.data, ch ≠ '>' := by decide
  have mm3 : feedMode none htmlMid3z.data = none := by decide
  have mp1 : feedMode none htmlPost1.data = some accExp.data := by decide
  have gp2 : ∀ ch ∈ htmlPost2.data, ch ≠ '>' := by decide
  have sp3 : htmlPost3.data = htmlPost3y.data ++ '>' :: htmlPost3z.data := by decide
  have gp3 : ∀ ch ∈ htmlPost3y.data, ch ≠ '>' := by decide
  have mp3 : feedMode none htmlPost3z.data = none := by decide
  simp only [buildHtml, str_data_append, s3, s5, sm3, sp3, List.append_assoc, List.cons_append]
  constructor
  · rw [feedTokens_append htmlPre1.data, m1, (seg_acc c hcg _ _).1,
        (seg_acc htmlPre2 g2 _ _).1, (seg_acc c hcg _ _).1, (seg_acc htmlPre3y g3 _ _).1,
        feedTokens_gtStep, feedTokens_append htmlPre3z.data, m3, (seg_acc c hcg _ _).1,
        (seg_acc htmlPre4 g4 _ _).1, (seg_acc c hcg _ _).1, (seg_acc htmlPre5y g5 _ _).1,
        feedTokens_gtStep, feedTokens_append htmlPre5z.data, m5, (seg_skip t ht _).1,
        feedTokens_append htmlMid1.data, mm1, (seg_acc c hcg _ _).1,
        (seg_acc htmlMid2 gm2 _ _).1, (seg_acc c hcg _ _).1, (seg_acc htmlMid3y gm3 _ _).1,
        feedTokens_gtStep, feedTokens_append htmlMid3z.data, mm3,
        (joined_scan p hp n hn _).1, feedTokens_append htmlPost1.data, mp1,
        (seg_acc c hcg _ _).1, (seg_acc htmlPost2 gp2 _ _).1, (seg_acc c hcg _ _).1,
        (seg_acc htmlPost3y gp3 _ _).1, feedTokens_gtStep]
    simp [htmlToks, tokBadge, tokGet, tokPrim, tokExp, List.append_assoc]
  · rw [feedMode_append htmlPre1.data, m1, (seg_acc c hcg _ _).2,
        (seg_acc htmlPre2 g2 _ _).2, (seg_acc c hcg _ _).2, (seg_acc htmlPre3y g3 _ _).2,
        feedMode_gtStep, feedMode_append htmlPre3z.data, m3, (seg_acc c hcg _ _).2,
        (seg_acc htmlPre4 g4 _ _).2, (seg_acc c hcg _ _).2, (seg_acc htmlPre5y g5 _ _).2,
        feedMode_gtStep, feedMode_append htmlPre5z.data, m5, (seg_skip t ht _).2,
        feedMode_append htmlMid1.data, mm1, (seg_acc c hcg _ _).2,
        (seg_acc htmlMid2 gm2 _ _).2, (seg_acc c hcg _ _).2, (seg_acc htmlMid3y gm3 _ _).2,
        feedMode_gtStep, feedMode_append htmlMid3z.data, mm3,
        (joined_scan p hp n hn _).2, feedMode_append htmlPost1.data, mp1,
        (seg_acc c hcg _ _).2, (seg_acc htmlPost2 gp2 _ _).2, (seg_acc c hcg _ _).2,
        (seg_acc htmlPost3y gp3 _ _).2, feedMode_gtStep, mp3]

/-! ## Classification of tokens with interpolated color text -/

theorem takeWhile_stop {q : Char → Bool} :
    ∀ (l₁ l₂ : List Char), (∃ x ∈ l₁, q x = false) →
      (l₁ ++ l₂).takeWhile q = l₁.takeWhile q := by
  intro l₁
  induction l₁ with
  | nil =>
      intro l₂ h
      obtain ⟨x, hx, _⟩ := h
      cases hx
  | cons a l ih =>
      intro l₂ h
      by_cases ha : q a
      · obtain ⟨x, hx, hqx⟩ := h
        rcases List.mem_cons.mp hx with rfl | hx'
        · rw [ha] at hqx; cases hqx
        · simp only [List.cons_append, List.takeWhile_cons, ha, if_true]
          rw [ih l₂ ⟨x, hx', hqx⟩]
      · have ha' : q a = false := by simpa using ha
        simp only [List.cons_append, List.takeWhile_cons, ha', if_false]
        simp

/-- Classification of a tag whose content is a literal head, arbitrary middle
and a literal tail: the head fixes the name and kind, the tail the self-closing
flag. -/
theorem classify_stable (tk l₁ mid l₂ : List Char) (htk : tk = l₁ ++ (mid ++ l₂))
    (h0 : l₁ ≠ []) (h1 : l₁.head? ≠ some '!') (h2 : l₁.head? ≠ some '/')
    (hname : ∃ x ∈ l₁, x.isAlphanum = false)
    (hl2 : l₂ ≠ []) (hsl : l₂.getLast? ≠ some '/') :
    classify tk = ⟨l₁.takeWhile Char.isAlphanum, false, false, false⟩ := by
  subst htk
  cases l₁ with
  | nil => exact absurd rfl h0
  | cons c t =>
      have hc1 : c ≠ '!' := fun h => h1 (by rw [h]; rfl)
      have hc2 : c ≠ '/' := fun h => h2 (by rw [h]; rfl)
      have hmid : mid ++ l₂ ≠ [] := fun h => hl2 (List.append_eq_nil.mp h).2
      rw [List.cons_append]
      show classify (c :: (t ++ (mid ++ l₂))) = _
      rw [classify]
      rw [if_neg hc1, if_neg hc2]
      have hlast : (c :: (t ++ (mid ++ l₂))).getLast? = l₂.getLast? := by
        rw [← List.cons_append, List.getLast?_append_of_ne_nil _ hmid,
            List.getLast?_append_of_ne_nil _ hl2]
      have hnm : (c :: (t ++ (mid ++ l₂))).takeWhile Char.isAlphanum =
          (c :: t).takeWhile Char.isAlphanum := by
        rw [← List.cons_append]
        exact takeWhile_stop (c :: t) (mid ++ l₂) hname
      rw [hnm, hlast, if_neg hsl]

theorem classify_tokBadge (c : String) :
    classify (tokBadge c) = ⟨("div").data, false, false, false⟩ := by
  rw [classify_stable (tokBadge c) accBadge.data (c.data ++ (htmlPre2.data ++ c.data))
        htmlPre3y.data (by simp [tokBadge, List.append_assoc]) (by decide) (by decide)
        (by decide) (by decide) (by decide) (by decide)]
  decide

theorem classify_tokGet (c : String) :
    classify (tokGet c) = ⟨("a").data, false, false, false⟩ := by
  rw [classify_stable (tokGet c) accGet.data (c.data ++ (htmlPre4.data ++ c.data))
        htmlPre5y.data (by simp [tokGet, List.append_assoc]) (by decide) (by decide)
        (by decide) (by decide) (by decide) (by decide)]
  decide

theorem classify_tokPrim (c : String) :
    classify (tokPrim c) = ⟨("a").data, false, false, false⟩ := by
  rw [classify_stable (tokPrim c) accPrim.data (c.data ++ (htmlMid2.data ++ c.data))
        htmlMid3y.data (by simp [tokPrim, List.append_assoc]) (by decide) (by decide)
        (by decide) (by decide) (by decide) (by decide)]
  decide

theorem classify_tokExp (c : String) :
    classify (tokExp c) = ⟨("a").data, false, false, false⟩ := by
  rw [classify_stable (tokExp c) accExp.data (c.data ++ (htmlPost2.data ++ c.data))
        htmlPost3y.data (by simp [tokExp, List.append_assoc]) (by decide) (by decide)
        (by decide) (by decide) (by decide) (by decide)]
  decide

/-! ## Running the stack over the document tokens -/

/-- Classified tokens before the section blocks. -/
def preToks : List TagTok :=
  (feedTokens none htmlPre1.data).map classify ++
    (⟨("div").data, false, false, false⟩ : TagTok) ::
      (feedTokens none htmlPre3z.data).map classify ++
    (⟨("a").data, false, false, false⟩ : TagTok) ::
      (feedTokens none htmlPre5z.data).map classify ++
    (feedTokens none htmlMid1.data).map classify ++
    (⟨("a").data, false, false, false⟩ : TagTok) ::
      (feedTokens none htmlMid3z.data).map classify

/-- Classified tokens after the section blocks. -/
def postToks : List TagTok :=
  (feedTokens none htmlPost1.data).map classify ++
    (⟨("a").data, false, false, false⟩ : TagTok) ::
      (feedTokens none htmlPost3z.data).map classify

theorem map_classify_htmlToks (c : String) (n : Nat) :
    (htmlToks c n).map classify = preToks ++ ((secRep n).map classify ++ postToks) := by
  simp [htmlToks, preToks, postToks, List.map_append, classify_tokBadge, classify_tokGet,
    classify_tokPrim, classify_tokExp, List.append_assoc]

/-- One classified section group leaves the stack and root count unchanged. -/
theorem checkRun_secGroup (a : List Char) (s : List (List Char)) (r : Nat) :
    checkRun (a :: s) r (secToks.map classify) = some (a :: s, r) := rfl

theorem checkRun_secRep (k : Nat) (a : List Char) (s : List (List Char)) (r : Nat) :
    checkRun (a :: s) r ((secRep k).map classify) = some (a :: s, r) := by
  induction k with
  | zero => rfl
  | succ k ih =>
      rw [secRep, List.map_append, checkRun_append, ih]
      exact checkRun_secGroup a s r

theorem checkRun_html (c : String) (n : Nat) :
    checkRun [] 0 ((htmlToks c n).map classify) = some ([], 1) := by
  rw [map_classify_htmlToks, checkRun_append]
  have h1 : checkRun [] 0 preToks =
      some (("main").data :: [("body").data, ("html").data], 1) := by decide
  rw [h1]
  show (checkRun (("main").data :: [("body").data, ("html").data]) 1
      ((secRep n).map classify ++ postToks)) = some ([], 1)
  rw [checkRun_append, checkRun_secRep]
  decide

/-- Well-formedness of the generated document for markup-free inputs. -/
theorem buildHtml_wellFormed (t p c : String) (ht : markupFree t) (hp : markupFree p)
    (hc : markupFree c) (n : Nat) (hn : n ≤ 6) :
    wellFormedHtml (buildHtml t p c n) = true := by
  obtain ⟨htoks, hmode⟩ := buildHtml_scan t p c ht hp hc n hn
  rw [wellFormedHtml, hmode, htoks, checkRun_html]
  rfl

/-! ## Counting the section-block marker -/

theorem beq_marker_false (x : List Char) (hx : x.head? ≠ some 's') :
    (x == markerTok) = false := by
  rw [beq_eq_false_iff_ne]
  intro h
  apply hx
  rw [h]
  rfl

theorem head_tokBadge (c : String) : (tokBadge c).head? = some 'd' := by
  simp only [tokBadge, List.append_assoc]
  rw [List.head?_append_of_ne_nil _ (by decide : accBadge.data ≠ [])]
  rfl

theorem head_tokGet (c : String) : (tokGet c).head? = some 'a' := by
  simp only [tokGet, List.append_assoc]
  rw [List.head?_append_of_ne_nil _ (by decide : accGet.data ≠ [])]
  rfl

theorem head_tokPrim (c : String) : (tokPrim c).head? = some 'a' := by
  simp only [tokPrim, List.append_assoc]
  rw [List.head?_append_of_ne_nil _ (by decide : accPrim.data ≠ [])]
  rfl

theorem head_tokExp (c : String) : (tokExp c).head? = some 'a' := by
  simp only [tokExp, List.append_assoc]
  rw [List.head?_append_of_ne_nil _ (by decide : accExp.data ≠ [])]
  rfl

theorem marker_count_secRep :
    ∀ k, ((secRep k).filter (fun t => t == markerTok)).length = k := by
  intro k
  induction k with
  | zero => rfl
  | succ k ih =>
      have h1 : (secToks.filter (fun t => t == markerTok)).length = 1 := by decide
      rw [secRep, List.filter_append, List.length_append, ih, h1]

/-- The generated document carries exactly `n` section-block markers for
markup-free inputs. -/
theorem countMarker_buildHtml (t p c : String) (ht : markupFree t) (hp : markupFree p)
    (hc : markupFree c) (n : Nat) (hn : n ≤ 6) :
    countMarker (buildHtml t p c n) = n := by
  obtain ⟨htoks, _⟩ := buildHtml_scan t p c ht hp hc n hn
  rw [countMarker, htoks]
  have hb : (tokBadge c == markerTok) = false :=
    beq_marker_false _ (by rw [head_tokBadge]; decide)
  have hg : (tokGet c == markerTok) = false :=
    beq_marker_false _ (by rw [head_tokGet]; decide)
  have hpr : (tokPrim c == markerTok) = false :=
    beq_marker_false _ (by rw [head_tokPrim]; decide)
  have he : (tokExp c == markerTok) = false :=
    beq_marker_false _ (by rw [head_tokExp]; decide)
  have f1 : ((feedTokens none htmlPre1.data).filter (fun t => t == markerTok)).length = 0 := by
    decide
  have f2 : ((feedTokens none htmlPre3z.data).filter (fun t => t == markerTok)).length = 0 := by
    decide
  have f3 : ((feedTokens none htmlPre5z.data).filter (fun t => t == markerTok)).length = 0 := by
    decide
  have f4 : ((feedTokens none htmlMid1.data).filter (fun t => t == markerTok)).length = 0 := by
    decide
  have f5 : ((feedTokens none htmlMid3z.data).filter (fun t => t == markerTok)).length = 0 := by
    decide
  have f6 : ((feedTokens none htmlPost1.data).filter (fun t => t == markerTok)).length = 0 := by
    decide
  have f7 : ((feedTokens none htmlPost3z.data).filter (fun t => t == markerTok)).length = 0 := by
    decide
  simp only [htmlToks, List.filter_append, List.filter_cons, hb, hg, hpr, he,
    Bool.false_eq_true, if_false, List.length_append, f1, f2, f3, f4, f5, f6, f7,
    marker_count_secRep]
  omega

/-! ## Properties of the title derivation -/

theorem str_length_mk (l : List Char) : (⟨l⟩ : String).length = l.length := rfl

theorem str_data_mk (l : List Char) : (⟨l⟩ : String).data = l := rfl

theorem mem_rstripPeriods (s : String) (ch : Char) (h : ch ∈ (rstripPeriods s).data) :
    ch ∈ s.data := by
  simp only [rstripPeriods, str_data_mk] at h
  rw [List.mem_reverse] at h
  have h2 := (List.dropWhile_suffix _).sublist.subset h
  rwa [List.mem_reverse] at h2

theorem mem_pyTake (s : String) (n : Nat) (ch : Char) (h : ch ∈ (pyTake s n).data) :
    ch ∈ s.data := by
  simp only [pyTake, str_data_mk] at h
  exact (List.take_sublist _ _).subset h

/-- The derived title inherits markup-freeness from the prompt. -/
theorem markupFree_pyTitle (p : String) (hp : markupFree p) : markupFree (pyTitle p) := by
  intro ch hch
  simp only [pyTitle] at hch
  by_cases hlen : (rstripPeriods (pyTake p 80)).length < p.length
  · rw [if_pos hlen, str_data_append, List.mem_append] at hch
    rcases hch with hch | hch
    · exact hp ch (mem_pyTake p 80 ch (mem_rstripPeriods _ ch hch))
    · have hdot : ch = '.' := by
        have hd : ("...").data = ['.', '.', '.'] := rfl
        rw [hd] at hch
        simpa using hch
      rw [hdot]
      exact ⟨by decide, by decide⟩
  · rw [if_neg hlen] at hch
    exact hp ch (mem_pyTake p 80 ch (mem_rstripPeriods _ ch hch))

theorem rstripPeriods_length_le (s : String) : (rstripPeriods s).length ≤ s.length := by
  simp only [rstripPeriods, str_length_mk, String.length]
  rw [List.length_reverse]
  calc (s.data.reverse.dropWhile _).length
      ≤ s.data.reverse.length := (List.dropWhile_suffix _).sublist.length_le
    _ = s.data.length := List.length_reverse _

theorem rstripPeriods_eq_of_length (s : String)
    (h : (rstripPeriods s).length = s.length) : rstripPeriods s = s := by
  have hd : (s.data.reverse.dropWhile (fun ch => ch = '.')) = s.data.reverse := by
    apply List.IsSuffix.eq_of_length (List.dropWhile_suffix _)
    have h' := h
    simp only [rstripPeriods, str_length_mk, String.length, List.length_reverse] at h'
    rw [h']
    exact (List.length_reverse _).symm
  show rstripPeriods s = ⟨s.data⟩
  simp only [rstripPeriods, hd, List.reverse_reverse]

/-- The exact title law implemented by lines 90-92: for long prompts the first
80 characters are kept, periods stripped, ellipsis added; for short prompts the
ellipsis appears exactly when period-stripping shortened the prompt. -/
theorem pyTitle_spec (s : String) :
    (80 < s.length → pyTitle s = rstripPeriods (pyTake s 80) ++ "...") ∧
    (s.length ≤ 80 →
      pyTitle s = rstripPeriods s ++ (if rstripPeriods s = s then "" else "...")) := by
  constructor
  · intro h
    have h1 : (rstripPeriods (pyTake s 80)).length ≤ (pyTake s 80).length :=
      rstripPeriods_length_le _
    have h2 : (pyTake s 80).length ≤ 80 := by
      simp only [pyTake, str_length_mk, List.length_take, String.length]
      omega
    simp only [pyTitle]
    rw [if_pos (by omega)]
  · intro h
    have htake : pyTake s 80 = s := by
      show pyTake s 80 = ⟨s.data⟩
      simp only [pyTake]
      rw [List.take_of_length_le h]
    simp only [pyTitle, htake]
    by_cases he : rstripPeriods s = s
    · have hlen : ¬ (rstripPeriods s).length < s.length := by rw [he]; omega
      rw [if_neg hlen, if_pos he]
      exact (String.append_empty _).symm
    · have hle : (rstripPeriods s).length ≤ s.length := rstripPeriods_length_le s
      have hne : (rstripPeriods s).length ≠ s.length := fun hq => he (rstripPeriods_eq_of_length s hq)
      rw [if_pos (by omega), if_neg he]

/-- Shape of the successful response. -/
theorem generate_site_ok (req : GenerateRequest) (h : pyStrip req.prompt ≠ "") :
    generate_site req = Except.ok
      { html := buildHtml (pyTitle (pyStrip req.prompt)) (pyStrip req.prompt)
                  (pyStr req.color) (resolveSections req.sections)
        meta := { prompt := pyStrip req.prompt, color := req.color,
                  sections := resolveSections req.sections } } := by
  simp only [generate_site]
  rw [if_neg h]

/-! ## Claims -/

/-- C1 counterexample: the prompt `"Hi."` is accepted, is not longer than 80
characters, yet the emitted title is `"Hi..."` rather than the plain
period-stripped prompt `"Hi"` — the ellipsis appears without truncation,
contradicting the claimed truncation law. -/
theorem title_truncation_cx :
    pyStrip "Hi." = "Hi." ∧ ¬ 80 < ("Hi." : String).length ∧
      pyTitle "Hi." = "Hi..." ∧ pyTitle "Hi." ≠ rstripPeriods "Hi." := by
  decide

/-- C1 (amended): for an accepted request, the title embedded in the hero
heading is `prompt[:80]` with trailing periods stripped; the ellipsis marker is
appended exactly when that string is shorter than the trimmed prompt — i.e.
when truncation occurred or when period-stripping removed characters — not
only upon truncation. -/
theorem title_truncation (req : GenerateRequest) (h : pyStrip req.prompt ≠ "") :
    (80 < (pyStrip req.prompt).length →
      pyTitle (pyStrip req.prompt) = rstripPeriods (pyTake (pyStrip req.prompt) 80) ++ "...") ∧
    ((pyStrip req.prompt).length ≤ 80 →
      pyTitle (pyStrip req.prompt) = rstripPeriods (pyStrip req.prompt) ++
        (if rstripPeriods (pyStrip req.prompt) = pyStrip req.prompt then "" else "...")) ∧
    (∃ a b : List Char, (generate_site req).map (fun r => r.html.data) =
      Except.ok (a ++ ((htmlPre5.data ++ ((pyTitle (pyStrip req.prompt)).data ++ htmlMid1.data))
        ++ b))) := by
  refine ⟨(pyTitle_spec _).1, (pyTitle_spec _).2, ?_⟩
  rw [generate_site_ok req h]
  refine ⟨htmlPre1.data ++ ((pyStr req.color).data ++ (htmlPre2.data ++ ((pyStr req.color).data ++
      (htmlPre3.data ++ ((pyStr req.color).data ++ (htmlPre4.data ++ (pyStr req.color).data)))))),
    ((pyStr req.color).data ++ (htmlMid2.data ++ ((pyStr req.color).data ++ (htmlMid3.data ++
      ((sectionBlocksJoined (pyStrip req.prompt) (resolveSections req.sections)).data ++
        (htmlPost1.data ++ ((pyStr req.color).data ++ (htmlPost2.data ++
          ((pyStr req.color).data ++ htmlPost3.data))))))))), ?_⟩
  show Except.ok (buildHtml _ _ _ _).data = _
  refine congrArg Except.ok ?_
  simp [buildHtml, str_data_append, List.append_assoc]

/-- C1 witness: the amended title law evaluated at the request
`"Hello world"` (short prompt, no trailing periods, no ellipsis). -/
theorem title_truncation_witness :
    (80 < (pyStrip "Hello world").length →
      pyTitle (pyStrip "Hello world") = rstripPeriods (pyTake (pyStrip "Hello world") 80) ++ "...") ∧
    ((pyStrip "Hello world").length ≤ 80 →
      pyTitle (pyStrip "Hello world") = rstripPeriods (pyStrip "Hello world") ++
        (if rstripPeriods (pyStrip "Hello world") = pyStrip "Hello world" then "" else "...")) ∧
    (∃ a b : List Char,
      (generate_site { prompt := "Hello world" }).map (fun r => r.html.data) =
        Except.ok (a ++ ((htmlPre5.data ++ ((pyTitle (pyStrip "Hello world")).data ++
          htmlMid1.data)) ++ b))) :=
  title_truncation { prompt := "Hello world" } (by decide)

/-- C3: the generator fails exactly on prompts that are empty after stripping,
with status 400 and detail `"Prompt cannot be empty"`, producing no response
record; every other accepted input produces a response. -/
theorem empty_prompt_error_iff (req : GenerateRequest) :
    (pyStrip req.prompt = "" →
      generate_site req = Except.error (400, "Prompt cannot be empty")) ∧
    (pyStrip req.prompt ≠ "" → ∃ r, generate_site req = Except.ok r) := by
  constructor
  · intro h
    simp only [generate_site]
    rw [if_pos h]
  · intro h
    exact ⟨_, generate_site_ok req h⟩

/-- C3 witness: the whitespace-only prompt `"   "` is rejected with the fixed
400 error, and a non-empty prompt succeeds. -/
theorem empty_prompt_error_iff_witness :
    generate_site { prompt := "   " } = Except.error (400, "Prompt cannot be empty") ∧
      ∃ r, generate_site { prompt := "Build me a bakery site" } = Except.ok r :=
  ⟨(empty_prompt_error_iff { prompt := "   " }).1 (by decide),
   (empty_prompt_error_iff { prompt := "Build me a bakery site" }).2 (by decide)⟩

/-- C5: the returned `meta` record is exactly the normalized inputs: the
trimmed prompt, the color as given, and the resolved section count. -/
theorem meta_normalized (req : GenerateRequest) (h : pyStrip req.prompt ≠ "") :
    (generate_site req).map (fun r => r.meta) =
      Except.ok { prompt := pyStrip req.prompt, color := req.color,
                  sections := resolveSections req.sections } := by
  rw [generate_site_ok req h]
  rfl

/-- C5 witness: the boundary scenario — prompt `"Build me a bakery site"`,
color `"emerald"`, sections 2 — yields exactly that meta record. -/
theorem meta_normalized_witness :
    (generate_site { prompt := "Build me a bakery site",
                     color := some "emerald",
                     sections := some 2 }).map (fun r => r.meta) =
      Except.ok { prompt := "Build me a bakery site", color := some "emerald", sections := 2 } :=
  (meta_normalized { prompt := "Build me a bakery site",
                     color := some "emerald",
                     sections := some 2 } (by decide)).trans (congrArg Except.ok (by decide))

/-- C7: generation is deterministic — two invocations on identical inputs
return identical html and meta. -/
theorem generate_site_deterministic (r₁ r₂ : GenerateRequest) (h : r₁ = r₂) :
    generate_site r₁ = generate_site r₂ := by
  rw [h]

/-- C7 witness: determinism at the bakery request. -/
theorem generate_site_deterministic_witness :
    generate_site { prompt := "Build me a bakery site",
                    color := some "emerald",
                    sections := some 2 } =
      generate_site { prompt := "Build me a bakery site",
                      color := some "emerald",
                      sections := some 2 } :=
  generate_site_deterministic _ _ rfl

/-- C9: `/api/functions` returns exactly 5 capability entries, all free; the
endpoint takes no input and consults no state. -/
theorem functions_five_free :
    list_functions.length = 5 ∧ list_functions.all (fun f => f.free) = true := by
  decide

/-- C8: the database probe is a total function of the import outcome and the
environment — every failure path yields a response record whose `database`
field is the corresponding descriptive status string, and nothing escapes. -/
theorem probe_total (env : Env) (imp : DBImport) :
    (test_database env imp).backend = "✅ Running" ∧
    (imp = DBImport.importErr →
      (test_database env imp).database =
        "❌ Database module not found (run enable-database first)") ∧
    (∀ e, imp = DBImport.otherErr e →
      (test_database env imp).database = "❌ Error: " ++ strTake50 e) ∧
    (imp = DBImport.found none →
      (test_database env imp).database = "⚠️  Available but not initialized") ∧
    (∀ db, imp = DBImport.found (some db) →
      ((∀ cols, db.listCollectionNames = Except.ok cols →
        (test_database env imp).database = "✅ Connected & Working" ∧
        (test_database env imp).collections = cols.take 10) ∧
       (∀ e, db.listCollectionNames = Except.error e →
        (test_database env imp).database = "⚠️  Connected but Error: " ++ strTake50 e))) := by
  refine ⟨?_, ?_, ?_, ?_, ?_⟩
  · cases imp with
    | importErr => rfl
    | otherErr e => rfl
    | found o =>
        cases o with
        | none => rfl
        | some db => cases hq : db.listCollectionNames <;> simp [test_database, hq]
  · rintro rfl; rfl
  · rintro e rfl; rfl
  · rintro rfl; rfl
  · rintro db rfl
    constructor
    · rintro cols hq
      constructor <;> simp [test_database, hq]
    · rintro e hq
      simp [test_database, hq]

/-- C8 witness: the probe evaluated on a failed import and on a working
handle. -/
theorem probe_total_witness :
    (test_database ⟨none, none⟩ DBImport.importErr).database =
      "❌ Database module not found (run enable-database first)" ∧
    (test_database ⟨some "mongodb://db", some "app"⟩
        (DBImport.found (some ⟨some "app", Except.ok ["users"]⟩))).database =
      "✅ Connected & Working" :=
  ⟨(probe_total ⟨none, none⟩ DBImport.importErr).2.1 rfl,
   (((probe_total ⟨some "mongodb://db", some "app"⟩
        (DBImport.found (some ⟨some "app", Except.ok ["users"]⟩))).2.2.2.2
          ⟨some "app", Except.ok ["users"]⟩ rfl).1 ["users"] rfl).1⟩

/-- C10 counterexample: with `DATABASE_URL` present in the environment but set
to the empty string, the probe reports `"❌ Not Set"` — the field reports
Python truthiness, not presence. -/
theorem env_presence_cx :
    (⟨some "", none⟩ : Env).databaseUrl ≠ none ∧
    (test_database ⟨some "", none⟩ DBImport.importErr).databaseUrl = some "❌ Not Set" := by
  constructor
  · intro h; cases h
  · rfl

/-- C10 (amended): the `database_url` and `database_name` fields of every probe
response are unconditionally overwritten before returning with `"✅ Set"` /
`"❌ Not Set"` according to whether the corresponding environment variable is
set to a non-empty (truthy) value, independently of the import outcome and of
any value assigned during the connection check. -/
theorem env_fields_overwritten (env : Env) (imp : DBImport) :
    (test_database env imp).databaseUrl =
      some (if truthy env.databaseUrl then "✅ Set" else "❌ Not Set") ∧
    (test_database env imp).databaseName =
      some (if truthy env.databaseName then "✅ Set" else "❌ Not Set") ∧
    (∀ imp', (test_database env imp).databaseUrl = (test_database env imp').databaseUrl ∧
      (test_database env imp).databaseName = (test_database env imp').databaseName) := by
  refine ⟨rfl, rfl, fun imp' => ⟨rfl, rfl⟩⟩

/-- C2 counterexample: the accepted prompt `"<div>"` is interpolated verbatim,
so the returned document contains an unmatched `<div>` opening tag and is not
well-formed. -/
theorem wellformed_cx :
    pyStrip "<div>" ≠ "" ∧
    (generate_site { prompt := "<div>" }).toOption.map (fun r => wellFormedHtml r.html) =
      some false := by
  decide

/-- C2 (amended): for every accepted request whose trimmed prompt and color
contain no markup metacharacters `<` or `>`, the returned html is a well-formed
complete document: every opened tag is matched by a closing tag and exactly one
root element exists. -/
theorem generate_wellformed (req : GenerateRequest) (c : String) (hc : req.color = some c)
    (h : pyStrip req.prompt ≠ "") (hpf : markupFree (pyStrip req.prompt))
    (hcf : markupFree c) (k : Nat) (hk : req.sections = some k)
    (hk1 : 1 ≤ k) (hk6 : k ≤ 6) :
    (generate_site req).map (fun r => wellFormedHtml r.html) = Except.ok true := by
  rw [generate_site_ok req h]
  show Except.ok (wellFormedHtml (buildHtml _ _ _ _)) = _
  refine congrArg Except.ok ?_
  rw [hc, hk]
  show wellFormedHtml (buildHtml _ _ c (resolveSections (some k))) = true
  have hknz : ¬ k = 0 := by omega
  show wellFormedHtml (buildHtml _ _ c (if k = 0 then 3 else k)) = true
  rw [if_neg hknz]
  exact buildHtml_wellFormed _ _ _ (markupFree_pyTitle _ hpf) hpf hcf k hk6

/-- C2 witness: the bakery request with color `"emerald"` and two sections
produces a well-formed document. -/
theorem generate_wellformed_witness :
    (generate_site { prompt := "Build me a bakery site",
                     color := some "emerald",
                     sections := some 2 }).map (fun r => wellFormedHtml r.html) =
      Except.ok true :=
  generate_wellformed { prompt := "Build me a bakery site",
                        color := some "emerald",
                        sections := some 2 } "emerald" rfl (by decide) (by decide)
    (by decide) 2 rfl (by decide) (by decide)

/-- C4 counterexample: a prompt that itself contains the section-block marker
is accepted, and with the default 3 sections the returned html carries 7
occurrences of the marker (3 structural blocks, plus the prompt echoed in the
title and in each block body), not exactly 3. -/
theorem section_count_cx :
    pyStrip "<section class=\"py-16 border-t border-white/10\">" ≠ "" ∧
    (generate_site
        { prompt := "<section class=\"py-16 border-t border-white/10\">" }).toOption.map
      (fun r => countMarker r.html) = some 7 ∧ (7 : Nat) ≠ 3 := by
  decide

/-- C4 (amended): for every accepted request whose trimmed prompt and color
contain no markup metacharacters `<` or `>`, the returned html contains exactly
`k` section-block markers and embeds the `k` blocks — labeled `1` through `k`
in original order, each carrying the full untruncated prompt — as one
contiguous run. -/
theorem section_count (req : GenerateRequest) (c : String) (hc : req.color = some c)
    (h : pyStrip req.prompt ≠ "") (hpf : markupFree (pyStrip req.prompt))
    (hcf : markupFree c) (k : Nat) (hk : req.sections = some k)
    (hk1 : 1 ≤ k) (hk6 : k ≤ 6) :
    (generate_site req).map (fun r => countMarker r.html) = Except.ok k ∧
    (∃ a b : List Char, (generate_site req).map (fun r => r.html.data) =
      Except.ok (a ++ ((sectionBlocksJoined (pyStrip req.prompt) k).data ++ b))) := by
  have hknz : ¬ k = 0 := by omega
  have hres : resolveSections req.sections = k := by
    rw [hk]
    show (if k = 0 then 3 else k) = k
    rw [if_neg hknz]
  constructor
  · rw [generate_site_ok req h]
    show Except.ok (countMarker (buildHtml _ _ _ _)) = _
    refine congrArg Except.ok ?_
    rw [hres]
    exact countMarker_buildHtml _ _ _ (markupFree_pyTitle _ hpf) hpf
      (by rw [hc]; exact hcf) k hk6
  · rw [generate_site_ok req h, hres]
    refine ⟨htmlPre1.data ++ ((pyStr req.color).data ++ (htmlPre2.data ++
        ((pyStr req.color).data ++ (htmlPre3.data ++ ((pyStr req.color).data ++
        (htmlPre4.data ++ ((pyStr req.color).data ++ (htmlPre5.data ++
        ((pyTitle (pyStrip req.prompt)).data ++ (htmlMid1.data ++ ((pyStr req.color).data ++
        (htmlMid2.data ++ ((pyStr req.color).data ++ htmlMid3.data))))))))))))),
      htmlPost1.data ++ ((pyStr req.color).data ++ (htmlPost2.data ++
        ((pyStr req.color).data ++ htmlPost3.data))), ?_⟩
    show Except.ok (buildHtml _ _ _ _).data = _
    refine congrArg Except.ok ?_
    simp [buildHtml, str_data_append, List.append_assoc]

/-- C4 witness: the amended section-count law at the bakery request with two
sections. -/
theorem section_count_witness :
    (generate_site { prompt := "Build me a bakery site",
                     color := some "emerald",
                     sections := some 2 }).map (fun r => countMarker r.html) = Except.ok 2 ∧
    (∃ a b : List Char,
      (generate_site { prompt := "Build me a bakery site",
                       color := some "emerald",
                       sections := some 2 }).map (fun r => r.html.data) =
        Except.ok (a ++ ((sectionBlocksJoined (pyStrip "Build me a bakery site") 2).data ++ b))) :=
  section_count { prompt := "Build me a bakery site",
                  color := some "emerald",
                  sections := some 2 } "emerald" rfl (by decide) (by decide) (by decide)
    2 rfl (by decide) (by decide)

/-! ## C6: the three color substitution sites -/

/-- `htmlPre1` without its final `"bg-"`. -/
def navSplit1 : List Char := htmlPre1.data.take (htmlPre1.data.length - 3)

/-- `htmlPre2` without its leading `"-500"`. -/
def navSplit2 : List Char := htmlPre2.data.drop 4

/-- `htmlMid1` without its final `"bg-"`. -/
def primSplit1 : List Char := htmlMid1.data.take (htmlMid1.data.length - 3)

/-- `htmlMid2` without its leading `"-500"`. -/
def primSplit2 : List Char := htmlMid2.data.drop 4

/-- `htmlPost1` without its final `"text-"`. -/
def footSplit1 : List Char := htmlPost1.data.take (htmlPost1.data.length - 5)

/-- `htmlPost2` without its leading `"-400"`. -/
def footSplit2 : List Char := htmlPost2.data.drop 4

/-- C6: the color text is interpolated verbatim — whatever it is, with no
palette validation — into at least three independent sites of the returned
document: the navigation accent class `bg-{color}-500`, the primary action
button class `bg-{color}-500`, and the footer link class `text-{color}-400`. -/
theorem color_sites (req : GenerateRequest) (c : String) (hc : req.color = some c)
    (h : pyStrip req.prompt ≠ "") :
    ∃ s1 s2 s3 s4 : List Char,
      (generate_site req).map (fun r => r.html.data) =
        Except.ok (s1 ++ (("bg-" ++ c ++ "-500").data ++ (s2 ++ (("bg-" ++ c ++ "-500").data ++
          (s3 ++ (("text-" ++ c ++ "-400").data ++ s4)))))) := by
  have e1 : htmlPre1.data = navSplit1 ++ ("bg-").data := rfl
  have e2 : htmlPre2.data = ("-500").data ++ navSplit2 := rfl
  have e3 : htmlMid1.data = primSplit1 ++ ("bg-").data := rfl
  have e4 : htmlMid2.data = ("-500").data ++ primSplit2 := rfl
  have e5 : htmlPost1.data = footSplit1 ++ ("text-").data := rfl
  have e6 : htmlPost2.data = ("-400").data ++ footSplit2 := rfl
  rw [generate_site_ok req h, hc]
  refine ⟨navSplit1,
    navSplit2 ++ (c.data ++ (htmlPre3.data ++ (c.data ++ (htmlPre4.data ++ (c.data ++
      (htmlPre5.data ++ ((pyTitle (pyStrip req.prompt)).data ++ primSplit1))))))),
    primSplit2 ++ (c.data ++ (htmlMid3.data ++
      ((sectionBlocksJoined (pyStrip req.prompt) (resolveSections req.sections)).data ++
        footSplit1))),
    footSplit2 ++ (c.data ++ htmlPost3.data), ?_⟩
  show Except.ok (buildHtml _ _ c _).data = _
  refine congrArg Except.ok ?_
  simp only [buildHtml, str_data_append, List.append_assoc]
  rw [e1, e2, e3, e4, e5, e6]
  simp [str_data_append, List.append_assoc]

/-- C6 witness: the three substitution sites at the bakery request with color
`"emerald"`. -/
theorem color_sites_witness :
    ∃ s1 s2 s3 s4 : List Char,
      (generate_site { prompt := "Build me a bakery site",
                       color := some "emerald",
                       sections := some 2 }).map (fun r => r.html.data) =
        Except.ok (s1 ++ (("bg-" ++ "emerald" ++ "-500").data ++
          (s2 ++ (("bg-" ++ "emerald" ++ "-500").data ++
          (s3 ++ (("text-" ++ "emerald" ++ "-400").data ++ s4)))))) :=
  color_sites { prompt := "Build me a bakery site",
                color := some "emerald",
                sections := some 2 } "emerald" rfl (by decide)

end SiteGen
